import Mathlib

set_option maxHeartbeats 1000000

/-!
Shallow embedding of the label-routing module (`src/backend/routes/labels.py`)
of the readur repository.  Labels, documents and document-label assignment
rows are modelled as lists of records; every route handler becomes a pure
function from a database state (plus the caller's identity and the request
payload) to either an `HTTPError` (status code and detail string, as raised
by `HTTPException`) or a result together with the successor database state.
A raised error means the surrounding transaction never commits, so the
error branch carries no successor state.
-/

structure Label where
  id : Nat
  user_id : Nat
  name : String
  description : Option String
  color : String
  background_color : Option String
  icon : Option String
  is_system : Bool
  created_at : Nat
  updated_at : Nat
deriving Repr, DecidableEq

structure Doc where
  id : Nat
  user_id : Nat
deriving Repr, DecidableEq

structure Assignment where
  document_id : Nat
  label_id : Nat
  assigned_by : Nat
deriving Repr, DecidableEq

structure DB where
  labels : List Label
  documents : List Doc
  document_labels : List Assignment
deriving Repr, DecidableEq

structure HTTPError where
  status : Nat
  detail : String
deriving Repr, DecidableEq

/-- Request body of `PUT /labels/\x7bid\x7d` (`LabelUpdate` in the source):
every field is either present with a value or absent. -/
structure LabelUpdate where
  name : Option String := none
  description : Option String := none
  color : Option String := none
  background_color : Option String := none
  icon : Option String := none
deriving Repr, DecidableEq

/-- A label is visible to a user when the user owns it or it is a system
label (the SQL condition `user_id = $1 OR is_system = TRUE`). -/
def visibleLabel (userId : Nat) (l : Label) : Bool :=
  l.user_id == userId || l.is_system

/-- Ownership check used before any document-label mutation
(`SELECT id FROM documents WHERE id = $1 AND user_id = $2`). -/
def ownsDoc (db : DB) (userId docId : Nat) : Bool :=
  db.documents.any (fun d => d.id == docId && d.user_id == userId)

/-- Insert a label into a list sorted by name (helper for `ORDER BY name`). -/
def insertByName (x : Label) : List Label → List Label
  | [] => [x]
  | y :: ys => if x.name ≤ y.name then x :: y :: ys else y :: insertByName x ys

/-- Sort a list of labels by name, modelling SQL `ORDER BY l.name`. -/
def sortByName : List Label → List Label
  | [] => []
  | x :: xs => insertByName x (sortByName xs)

/-- `GET /labels` — all labels visible to the caller, ordered by name. -/
def get_labels (db : DB) (userId : Nat) : List Label :=
  sortByName (db.labels.filter (visibleLabel userId))

/-- `POST /labels` — insert a new label owned by the caller; the unique
constraint on `(user_id, name)` raises `UniqueViolationError`, which the
handler converts to an HTTP 400. -/
def create_label (db : DB) (userId : Nat) (nm : String) (descr : Option String)
    (color : String) (bg : Option String) (ic : Option String)
    (newId now : Nat) : Except HTTPError (DB × Label) :=
  if db.labels.any (fun l => l.user_id == userId && l.name == nm) then
    .error ⟨400, "Label with this name already exists"⟩
  else
    let lab : Label := ⟨newId, userId, nm, descr, color, bg, ic, false, now, now⟩
    .ok ({ db with labels := db.labels ++ [lab] }, lab)

/-- True when the patch carries at least one field, mirroring the handler's
`updates` list being non-empty. -/
def patchPresent (p : LabelUpdate) : Bool :=
  p.name.isSome || p.description.isSome || p.color.isSome ||
    p.background_color.isSome || p.icon.isSome

/-- Execute the dynamically built `SET` clauses: each present field is
assigned its patch value, absent fields are untouched, and
`updated_at = CURRENT_TIMESTAMP` is always appended. -/
def applyPatch (existing : Label) (p : LabelUpdate) (now : Nat) : Label :=
  { existing with
    name := p.name.getD existing.name
    description := match p.description with
      | some d => some d
      | none => existing.description
    color := p.color.getD existing.color
    background_color := match p.background_color with
      | some b => some b
      | none => existing.background_color
    icon := match p.icon with
      | some i => some i
      | none => existing.icon
    updated_at := now }

/-- `PUT /labels/\x7bid\x7d` — partial update of an owned, non-system label. -/
def update_label (db : DB) (userId labelId : Nat) (patch : LabelUpdate) (now : Nat) :
    Except HTTPError (DB × Label) :=
  match db.labels.find? (fun l => l.id == labelId && l.user_id == userId &&
      l.is_system == false) with
  | none => .error ⟨404, "Label not found or cannot be modified"⟩
  | some existing =>
    if !patchPresent patch then
      .ok (db, existing)
    else
      let newLab := applyPatch existing patch now
      if db.labels.any (fun l => !(l.id == labelId) && l.user_id == userId &&
          l.name == newLab.name) then
        .error ⟨400, "Label with this name already exists"⟩
      else
        .ok ({ db with labels :=
          db.labels.map (fun l => if l.id == labelId then newLab else l) }, newLab)

/-- `DELETE /labels/\x7bid\x7d` — delete an owned, non-system label;
`DELETE 0` becomes HTTP 404. -/
def delete_label (db : DB) (userId labelId : Nat) : Except HTTPError DB :=
  let remaining := db.labels.filter
    (fun l => !(l.id == labelId && l.user_id == userId && l.is_system == false))
  if remaining.length == db.labels.length then
    .error ⟨404, "Label not found or cannot be deleted"⟩
  else
    .ok { db with labels := remaining }

/-- `GET /labels/documents/\x7bid\x7d` — the labels attached to an owned
document: the inner join of the document's assignment rows with the label
table, ordered by label name. -/
def get_document_labels (db : DB) (userId docId : Nat) :
    Except HTTPError (List Label) :=
  if !ownsDoc db userId docId then
    .error ⟨404, "Document not found"⟩
  else
    .ok (sortByName ((db.document_labels.filter
      (fun a => a.document_id == docId)).filterMap
        (fun a => db.labels.find? (fun l => l.id == a.label_id))))

/-- Does the assignment relation contain the pair `(d, l)`? -/
def hasPair (rows : List Assignment) (d l : Nat) : Bool :=
  rows.any (fun a => a.document_id == d && a.label_id == l)

/-- `executemany` of a plain `INSERT` (no `ON CONFLICT` clause): the unique
constraint on `(document_id, label_id)` makes a duplicate pair raise,
modelled by `none`. -/
def insertAssignRows (cur : List Assignment) (rows : List Assignment) :
    Option (List Assignment) :=
  match rows with
  | [] => some cur
  | r :: rest =>
    if hasPair cur r.document_id r.label_id then none
    else insertAssignRows (cur ++ [r]) rest

/-- `executemany` of `INSERT ... ON CONFLICT DO NOTHING`: pairs already
present are silently skipped. -/
def insertIgnoreRows (cur : List Assignment) (rows : List Assignment) :
    List Assignment :=
  match rows with
  | [] => cur
  | r :: rest =>
    if hasPair cur r.document_id r.label_id then insertIgnoreRows cur rest
    else insertIgnoreRows (cur ++ [r]) rest

/-- Number of rows returned by
`SELECT id FROM labels WHERE id = ANY($1) AND (user_id = $2 OR is_system)`:
each stored label contributes at most one row, regardless of duplicates in
the requested array. -/
def labelCheckCount (db : DB) (userId : Nat) (labelIds : List Nat) : Nat :=
  (db.labels.filter (fun l => labelIds.contains l.id && visibleLabel userId l)).length

/-- Number of rows returned by
`SELECT id FROM documents WHERE id = ANY($1) AND user_id = $2`. -/
def docCheckCount (db : DB) (userId : Nat) (documentIds : List Nat) : Nat :=
  (db.documents.filter
    (fun d => documentIds.contains d.id && d.user_id == userId)).length

/-- `PUT /labels/documents/\x7bid\x7d` — replace all labels of a document.
After validation it deletes the document's rows and inserts one row per
requested label id (plain insert, no conflict clause), then returns the
document's labels recomputed from the new state. -/
def update_document_labels (db : DB) (userId docId : Nat) (labelIds : List Nat) :
    Except HTTPError (DB × List Label) :=
  if !ownsDoc db userId docId then
    .error ⟨404, "Document not found"⟩
  else if !(labelCheckCount db userId labelIds == labelIds.length) then
    .error ⟨400, "One or more labels not found"⟩
  else
    let cleared := db.document_labels.filter (fun a => !(a.document_id == docId))
    match insertAssignRows cleared (labelIds.map (fun l => ⟨docId, l, userId⟩)) with
    | none => .error ⟨500, "Internal Server Error"⟩
    | some rows =>
      let db' : DB := { db with document_labels := rows }
      match get_document_labels db' userId docId with
      | .error e => .error e
      | .ok ls => .ok (db', ls)

/-- `POST /labels/documents/\x7bdid\x7d/labels/\x7blid\x7d` — single add; a
unique-constraint hit is caught and reported as the no-op success message. -/
def add_document_label (db : DB) (userId docId labelId : Nat) :
    Except HTTPError (DB × String) :=
  if !ownsDoc db userId docId then
    .error ⟨404, "Document not found"⟩
  else if !(db.labels.any (fun l => l.id == labelId && visibleLabel userId l)) then
    .error ⟨404, "Label not found"⟩
  else if hasPair db.document_labels docId labelId then
    .ok (db, "Label already assigned")
  else
    .ok ({ db with document_labels :=
      db.document_labels ++ [⟨docId, labelId, userId⟩] },
      "Label added successfully")

/-- Cartesian product of documents and labels, as the list of assignment
rows built by the bulk handler's list comprehension. -/
def mkRows (documentIds labelIds : List Nat) (userId : Nat) : List Assignment :=
  documentIds.flatMap (fun d => labelIds.map (fun l => ⟨d, l, userId⟩))

/-- `POST /labels/bulk/documents` — bulk label mutation.  FastAPI rejects a
mode outside `replace|add|remove` (regex on the query parameter) before the
handler runs; then documents are checked by comparing the count of matching
owned documents with the raw length of `document_ids`, labels likewise when
`label_ids` is non-empty, and finally the mode-specific statements run in
one transaction.  Returns the new state and `documents_updated`. -/
def bulk_update_document_labels (db : DB) (userId : Nat)
    (documentIds labelIds : List Nat) (mode : String) :
    Except HTTPError (DB × Nat) :=
  if !(mode == "replace" || mode == "add" || mode == "remove") then
    .error ⟨422, "string does not match regex"⟩
  else if !(docCheckCount db userId documentIds == documentIds.length) then
    .error ⟨400, "One or more documents not found"⟩
  else if !labelIds.isEmpty &&
      !(labelCheckCount db userId labelIds == labelIds.length) then
    .error ⟨400, "One or more labels not found"⟩
  else
    let db' : DB :=
      if mode == "replace" then
        let cleared := db.document_labels.filter
          (fun a => !(documentIds.contains a.document_id))
        if !labelIds.isEmpty then
          { db with document_labels :=
              insertIgnoreRows cleared (mkRows documentIds labelIds userId) }
        else
          { db with document_labels := cleared }
      else if mode == "add" then
        if !labelIds.isEmpty then
          { db with document_labels :=
              insertIgnoreRows db.document_labels (mkRows documentIds labelIds userId) }
        else db
      else
        if !labelIds.isEmpty then
          { db with document_labels := (db.document_labels.filter
              (fun a => !(documentIds.contains a.document_id &&
                labelIds.contains a.label_id))) }
        else db
    .ok (db', documentIds.length)

/-- The label ids attached to a document in a given state. -/
def docLabels (db : DB) (docId : Nat) : List Nat :=
  (db.document_labels.filter (fun a => a.document_id == docId)).map
    (fun a => a.label_id)

/-- No two list elements share the same `Nat` key. -/
def idsNodup (f : α → Nat) : List α → Bool
  | [] => true
  | x :: xs => !(xs.any (fun y => f y == f x)) && idsNodup f xs

/-- No two assignment rows share the same `(document_id, label_id)` pair:
the store's unique constraint. -/
def pairNodup : List Assignment → Bool
  | [] => true
  | a :: rest =>
    !(rest.any (fun b => b.document_id == a.document_id &&
      b.label_id == a.label_id)) && pairNodup rest

/-- Well-formed database state: primary keys of labels and documents are
unique, and the assignment relation satisfies its unique constraint. -/
def DB.wf (db : DB) : Bool :=
  idsNodup (fun l : Label => l.id) db.labels &&
  idsNodup (fun d : Doc => d.id) db.documents &&
  pairNodup db.document_labels

/-- Example label owned by user 1. -/
def labInvoices : Label := ⟨20, 1, "Invoices", none, "#0969da", none, none, false, 3, 3⟩

/-- Second example label owned by user 1. -/
def labReceipts : Label := ⟨21, 1, "Receipts", none, "#112233", none, none, false, 3, 3⟩

/-- Example system label. -/
def labArchived : Label := ⟨30, 99, "Archived", none, "#445566", none, none, true, 3, 3⟩

/-- Example database: three labels, documents 10 and 11 owned by user 1,
document 12 owned by user 2, and label 21 already on document 10. -/
def exDB : DB :=
  ⟨[labInvoices, labReceipts, labArchived],
   [⟨10, 1⟩, ⟨11, 1⟩, ⟨12, 2⟩],
   [⟨10, 21, 1⟩]⟩

example : exDB.wf = true := by decide

example : bulk_update_document_labels exDB 1 [] [20] "add" = .ok (exDB, 0) := by rfl

example : bulk_update_document_labels exDB 1 [10] [20, 20] "add" =
    .error ⟨400, "One or more labels not found"⟩ := by rfl

example : update_document_labels exDB 1 10 [20, 20] =
    .error ⟨400, "One or more labels not found"⟩ := by rfl

example : bulk_update_document_labels exDB 1 [10, 10] [20] "add" =
    .error ⟨400, "One or more documents not found"⟩ := by rfl

example : create_label exDB 1 "Invoices" none "#0969da" none none 99 5 =
    .error ⟨400, "Label with this name already exists"⟩ := by rfl

example : update_label exDB 1 20 ⟨none, none, none, none, none⟩ 99 =
    .ok (exDB, labInvoices) := by rfl

/-! Basic membership characterizations. -/

theorem hasPair_iff (rows : List Assignment) (d l : Nat) :
    hasPair rows d l = true ↔ ∃ a ∈ rows, a.document_id = d ∧ a.label_id = l := by
  simp [hasPair, List.any_eq_true, Bool.and_eq_true, beq_iff_eq]

theorem hasPair_append (xs ys : List Assignment) (d l : Nat) :
    hasPair (xs ++ ys) d l = (hasPair xs d l || hasPair ys d l) := by
  simp [hasPair, List.any_append]

theorem mem_insertByName (x y : Label) (l : List Label) :
    x ∈ insertByName y l ↔ x = y ∨ x ∈ l := by
  induction l with
  | nil => simp [insertByName]
  | cons z zs ih =>
    simp only [insertByName]
    by_cases h : y.name ≤ z.name
    · simp [h]
    · simp [h, ih]
      tauto

theorem mem_sortByName (x : Label) (l : List Label) :
    x ∈ sortByName l ↔ x ∈ l := by
  induction l with
  | nil => simp [sortByName]
  | cons z zs ih => simp [sortByName, mem_insertByName, ih]

theorem mem_docLabels (db : DB) (d l : Nat) :
    l ∈ docLabels db d ↔ hasPair db.document_labels d l = true := by
  simp [docLabels, hasPair, List.mem_map, List.mem_filter, List.any_eq_true,
    Bool.and_eq_true, beq_iff_eq]
  constructor
  · rintro ⟨a, ⟨ha, hd⟩, hl⟩
    exact ⟨a, ha, hd, hl⟩
  · rintro ⟨a, ha, hd, hl⟩
    exact ⟨a, ⟨ha, hd⟩, hl⟩

theorem hasPair_mkRows (ds ls : List Nat) (u d l : Nat) :
    hasPair (mkRows ds ls u) d l = true ↔ d ∈ ds ∧ l ∈ ls := by
  simp [mkRows, hasPair, List.any_eq_true, List.mem_flatMap, List.mem_map,
    Bool.and_eq_true, beq_iff_eq]

theorem hasPair_cons (r : Assignment) (rest : List Assignment) (d l : Nat) :
    hasPair (r :: rest) d l = true ↔
      (r.document_id = d ∧ r.label_id = l) ∨ hasPair rest d l = true := by
  simp [hasPair, Bool.and_eq_true, beq_iff_eq]

theorem hasPair_singleton (r : Assignment) (d l : Nat) :
    hasPair [r] d l = true ↔ (r.document_id = d ∧ r.label_id = l) := by
  simp [hasPair, Bool.and_eq_true, beq_iff_eq]

theorem hasPair_insertIgnoreRows (rows : List Assignment) :
    ∀ (cur : List Assignment) (d l : Nat),
      hasPair (insertIgnoreRows cur rows) d l = true ↔
        hasPair cur d l = true ∨ hasPair rows d l = true := by
  induction rows with
  | nil => intro cur d l; simp [insertIgnoreRows, hasPair]
  | cons r rest ih =>
    intro cur d l
    simp only [insertIgnoreRows]
    cases h : hasPair cur r.document_id r.label_id with
    | true =>
      rw [if_pos rfl, ih, hasPair_cons]
      constructor
      · rintro (hc | hr)
        · exact Or.inl hc
        · exact Or.inr (Or.inr hr)
      · rintro (hc | ⟨hd, hl⟩ | hr)
        · exact Or.inl hc
        · exact Or.inl (hd ▸ hl ▸ h)
        · exact Or.inr hr
    | false =>
      rw [if_neg (by simp [h]), ih, hasPair_append, hasPair_cons]
      simp only [Bool.or_eq_true, hasPair_singleton]
      tauto

theorem pairNodup_cons_iff (r : Assignment) (rest : List Assignment) :
    pairNodup (r :: rest) = true ↔
      (∀ b ∈ rest, ¬(b.document_id = r.document_id ∧ b.label_id = r.label_id)) ∧
        pairNodup rest = true := by
  simp [pairNodup, Bool.and_eq_true, List.any_eq_true, beq_iff_eq]

theorem insertAssignRows_eq (rows : List Assignment) :
    ∀ (cur : List Assignment),
      (∀ r ∈ rows, hasPair cur r.document_id r.label_id = false) →
      pairNodup rows = true →
      insertAssignRows cur rows = some (cur ++ rows) := by
  induction rows with
  | nil => intro cur _ _; simp [insertAssignRows]
  | cons r rest ih =>
    intro cur hcur hnd
    obtain ⟨hhead, htail⟩ := (pairNodup_cons_iff r rest).mp hnd
    simp only [insertAssignRows]
    rw [if_neg (by simp [hcur r (List.mem_cons_self r rest)])]
    have h1 : ∀ r' ∈ rest, hasPair (cur ++ [r]) r'.document_id r'.label_id = false := by
      intro r' hr'
      rw [hasPair_append]
      have hc := hcur r' (List.mem_cons_of_mem _ hr')
      have hr : hasPair [r] r'.document_id r'.label_id = false := by
        by_contra hcon
        have := (hasPair_singleton r r'.document_id r'.label_id).mp
          (by revert hcon; cases hasPair [r] r'.document_id r'.label_id <;> simp)
        exact hhead r' hr' ⟨this.1.symm, this.2.symm⟩
      simp [hc, hr]
    rw [ih (cur ++ [r]) h1 htail, List.append_assoc, List.singleton_append]

theorem length_filter_or (p q : α → Bool) (l : List α)
    (h : ∀ x ∈ l, ¬(p x = true ∧ q x = true)) :
    (l.filter (fun x => p x || q x)).length
      = (l.filter p).length + (l.filter q).length := by
  induction l with
  | nil => simp
  | cons a as ih =>
    have hd := h a (List.mem_cons_self a as)
    have ht : ∀ x ∈ as, ¬(p x = true ∧ q x = true) :=
      fun x hx => h x (List.mem_cons_of_mem _ hx)
    cases hp : p a with
    | true =>
      cases hq : q a with
      | true => exact absurd ⟨hp, hq⟩ hd
      | false =>
        simp [List.filter_cons, hp, hq, ih ht]
        omega
    | false =>
      cases hq : q a with
      | true =>
        simp [List.filter_cons, hp, hq, ih ht]
        omega
      | false =>
        simp [List.filter_cons, hp, hq, ih ht]

theorem length_filter_key (k : α → Nat) (x : Nat) (p : α → Bool) :
    ∀ (items : List α), idsNodup k items = true →
      (items.filter (fun it => k it == x && p it)).length
        = (if items.any (fun it => k it == x && p it) then 1 else 0) := by
  intro items
  induction items with
  | nil => intro _; simp
  | cons it0 rest ih =>
    intro hnd
    have hnd' := hnd
    simp only [idsNodup, Bool.and_eq_true] at hnd'
    have htail : idsNodup k rest = true := hnd'.2
    have hanyf : rest.any (fun y => k y == k it0) = false := by
      have h1 := hnd'.1
      cases h2 : rest.any (fun y => k y == k it0) <;> simp_all
    have hno : ∀ y ∈ rest, ¬ k y = k it0 := by
      intro y hy heq
      have : rest.any (fun y => k y == k it0) = true :=
        List.any_eq_true.mpr ⟨y, hy, beq_iff_eq.mpr heq⟩
      rw [hanyf] at this
      cases this
    cases hc : (k it0 == x && p it0) with
    | true =>
      have hkx : k it0 = x := by
        have := (Bool.and_eq_true _ _).mp hc
        exact beq_iff_eq.mp this.1
      have hrest0 : rest.filter (fun it => k it == x && p it) = [] := by
        rw [List.filter_eq_nil_iff]
        intro a ha
        have hne := hno a ha
        cases hka : (k a == x) with
        | true => exact absurd (hkx ▸ beq_iff_eq.mp hka) hne
        | false => simp
      simp [List.filter_cons, hc, hrest0, List.any_cons]
    | false =>
      simp [List.filter_cons, hc, List.any_cons, ih htail]

theorem contains_iff_mem_nat (l : List Nat) (a : Nat) : l.contains a = true ↔ a ∈ l := by
  rw [List.contains_eq_any_beq]
  simp only [List.any_eq_true, beq_iff_eq]
  exact ⟨fun ⟨x, hx, he⟩ => he ▸ hx, fun h => ⟨a, h, rfl⟩⟩

theorem contains_dedup (l : List Nat) (a : Nat) :
    l.dedup.contains a = l.contains a := by
  rw [Bool.eq_iff_iff, contains_iff_mem_nat, contains_iff_mem_nat, List.mem_dedup]

theorem length_filter_contains (k : α → Nat) (p : α → Bool) :
    ∀ (ids : List Nat) (items : List α), ids.Nodup → idsNodup k items = true →
      (items.filter (fun it => ids.contains (k it) && p it)).length
        = (ids.filter (fun x => items.any (fun it => k it == x && p it))).length := by
  intro ids
  induction ids with
  | nil =>
    intro items _ _
    simp [List.filter_eq_nil_iff]
  | cons x rest ih =>
    intro items hnd hitems
    obtain ⟨hx, hrest⟩ := List.nodup_cons.mp hnd
    have hsplit : items.filter (fun it => (x :: rest).contains (k it) && p it)
        = items.filter (fun it => (k it == x && p it) || (rest.contains (k it) && p it)) := by
      apply List.filter_congr
      intro it _
      rw [List.contains_cons]
      cases h1 : (k it == x) <;> cases h2 : rest.contains (k it) <;>
        cases h3 : p it <;> rfl
    rw [hsplit]
    have hdisj : ∀ it ∈ items,
        ¬((k it == x && p it) = true ∧ (rest.contains (k it) && p it) = true) := by
      intro it _ ⟨h1, h2⟩
      have hkx : k it = x := beq_iff_eq.mp ((Bool.and_eq_true _ _).mp h1).1
      have hmem : k it ∈ rest :=
        (contains_iff_mem_nat rest (k it)).mp ((Bool.and_eq_true _ _).mp h2).1
      exact hx (hkx ▸ hmem)
    rw [length_filter_or _ _ _ hdisj, length_filter_key k x p items hitems,
      ih items hrest hitems, List.filter_cons]
    cases hq : items.any (fun it => k it == x && p it) <;> simp [hq, Nat.add_comm]

theorem wf_parts (db : DB) (hwf : db.wf = true) :
    idsNodup (fun l : Label => l.id) db.labels = true ∧
    idsNodup (fun d : Doc => d.id) db.documents = true ∧
    pairNodup db.document_labels = true := by
  simpa [DB.wf, Bool.and_eq_true, and_assoc] using hwf

theorem docCheckCount_eq (db : DB) (u : Nat) (ds : List Nat) (hwf : db.wf = true) :
    docCheckCount db u ds
      = ((ds.dedup).filter
          (fun x => db.documents.any (fun d => d.id == x && d.user_id == u))).length := by
  have hnd := (wf_parts db hwf).2.1
  unfold docCheckCount
  have hcongr : db.documents.filter (fun d => ds.contains d.id && d.user_id == u)
      = db.documents.filter (fun d => ds.dedup.contains d.id && d.user_id == u) := by
    apply List.filter_congr
    intro d _
    rw [contains_dedup]
  rw [hcongr,
    length_filter_contains (fun d : Doc => d.id) (fun d => d.user_id == u)
      ds.dedup db.documents (List.nodup_dedup ds) hnd]

theorem labelCheckCount_eq (db : DB) (u : Nat) (ls : List Nat) (hwf : db.wf = true) :
    labelCheckCount db u ls
      = ((ls.dedup).filter
          (fun x => db.labels.any (fun l => l.id == x && visibleLabel u l))).length := by
  have hnd := (wf_parts db hwf).1
  unfold labelCheckCount
  have hcongr : db.labels.filter (fun l => ls.contains l.id && visibleLabel u l)
      = db.labels.filter (fun l => ls.dedup.contains l.id && visibleLabel u l) := by
    apply List.filter_congr
    intro l _
    rw [contains_dedup]
  rw [hcongr,
    length_filter_contains (fun l : Label => l.id) (visibleLabel u)
      ls.dedup db.labels (List.nodup_dedup ls) hnd]

theorem length_filter_dedup_ne (ds : List Nat) (q : Nat → Bool) (d : Nat)
    (hd : d ∈ ds) (hq : q d = false) :
    (ds.dedup.filter q).length ≠ ds.length := by
  intro heq
  have h1 : (ds.dedup.filter q).length ≤ ds.dedup.length :=
    (List.filter_sublist _).length_le
  have h2 : ds.dedup.length ≤ ds.length := (List.dedup_sublist ds).length_le
  have h3 : (ds.dedup.filter q).length = ds.dedup.length := by omega
  have h4 : ds.dedup.filter q = ds.dedup := (List.filter_sublist _).eq_of_length h3
  have h5 : d ∈ ds.dedup := List.mem_dedup.mpr hd
  have h6 : q d = true := List.of_mem_filter (h4.symm ▸ h5)
  rw [hq] at h6
  cases h6

theorem length_filter_dedup_ne_of_dup (ds : List Nat) (q : Nat → Bool)
    (hnd : ¬ ds.Nodup) :
    (ds.dedup.filter q).length ≠ ds.length := by
  intro heq
  have h1 : (ds.dedup.filter q).length ≤ ds.dedup.length :=
    (List.filter_sublist _).length_le
  have h2 : ds.dedup.length ≤ ds.length := (List.dedup_sublist ds).length_le
  have h3 : ds.dedup.length = ds.length := by omega
  have h4 : ds.dedup = ds := (List.dedup_sublist ds).eq_of_length h3
  exact hnd (h4 ▸ List.nodup_dedup ds)

theorem mkRows_nil (ds : List Nat) (u : Nat) : mkRows ds [] u = [] := by
  simp [mkRows]

theorem insertIgnoreRows_nil (cur : List Assignment) :
    insertIgnoreRows cur [] = cur := rfl

theorem hasPair_filter_not_contains (rows : List Assignment) (ds : List Nat)
    (d l : Nat) (hd : d ∈ ds) :
    hasPair (rows.filter (fun a => !(ds.contains a.document_id))) d l = false := by
  cases h : hasPair (rows.filter (fun a => !(ds.contains a.document_id))) d l with
  | false => rfl
  | true =>
    exfalso
    obtain ⟨a, ha, hdd, hll⟩ := (hasPair_iff _ _ _).mp h
    have hpred := (List.mem_filter.mp ha).2
    rw [Bool.not_eq_eq_eq_not, Bool.not_true] at hpred
    have hmem := (contains_iff_mem_nat ds a.document_id).mpr (hdd ▸ hd)
    rw [hpred] at hmem
    cases hmem

theorem hasPair_filter_remove (rows : List Assignment) (ds ls : List Nat) (d l : Nat) :
    hasPair (rows.filter (fun a =>
        !(ds.contains a.document_id && ls.contains a.label_id))) d l = true ↔
      hasPair rows d l = true ∧ ¬(d ∈ ds ∧ l ∈ ls) := by
  rw [hasPair_iff]
  constructor
  · rintro ⟨a, ha, rfl, rfl⟩
    obtain ⟨ham, hapred⟩ := List.mem_filter.mp ha
    refine ⟨(hasPair_iff _ _ _).mpr ⟨a, ham, rfl, rfl⟩, ?_⟩
    rintro ⟨hd, hl⟩
    have h1 := (contains_iff_mem_nat ds a.document_id).mpr hd
    have h2 := (contains_iff_mem_nat ls a.label_id).mpr hl
    rw [Bool.not_eq_eq_eq_not, Bool.not_true, h1, h2] at hapred
    cases hapred
  · rintro ⟨hp, hnot⟩
    obtain ⟨a, ham, rfl, rfl⟩ := (hasPair_iff _ _ _).mp hp
    refine ⟨a, List.mem_filter.mpr ⟨ham, ?_⟩, rfl, rfl⟩
    cases h1 : ds.contains a.document_id with
    | false => simp [h1]
    | true =>
      cases h2 : ls.contains a.label_id with
      | false => simp [h1, h2]
      | true =>
        exact absurd ⟨(contains_iff_mem_nat _ _).mp h1,
          (contains_iff_mem_nat _ _).mp h2⟩ hnot

theorem bulk_replace_ok (db : DB) (userId : Nat) (ds ls : List Nat)
    (hdocs : docCheckCount db userId ds = ds.length)
    (hlabels : ls = [] ∨ labelCheckCount db userId ls = ls.length) :
    bulk_update_document_labels db userId ds ls "replace"
      = .ok ({ db with document_labels :=
          insertIgnoreRows (db.document_labels.filter
            (fun a => !(ds.contains a.document_id))) (mkRows ds ls userId) },
        ds.length) := by
  cases he : ls.isEmpty with
  | true =>
    have hnil : ls = [] := List.isEmpty_iff.mp he
    subst hnil
    simp [bulk_update_document_labels, hdocs, mkRows_nil, insertIgnoreRows_nil]
  | false =>
    have h : labelCheckCount db userId ls = ls.length := by
      rcases hlabels with h | h
      · subst h; simp at he
      · exact h
    simp [bulk_update_document_labels, hdocs, h, he]

theorem bulk_add_ok (db : DB) (userId : Nat) (ds ls : List Nat)
    (hdocs : docCheckCount db userId ds = ds.length)
    (hlabels : ls = [] ∨ labelCheckCount db userId ls = ls.length) :
    bulk_update_document_labels db userId ds ls "add"
      = .ok ({ db with document_labels :=
          insertIgnoreRows db.document_labels (mkRows ds ls userId) }, ds.length) := by
  cases he : ls.isEmpty with
  | true =>
    have hnil : ls = [] := List.isEmpty_iff.mp he
    subst hnil
    simp [bulk_update_document_labels, hdocs, mkRows_nil, insertIgnoreRows_nil]
  | false =>
    have h : labelCheckCount db userId ls = ls.length := by
      rcases hlabels with h | h
      · subst h; simp at he
      · exact h
    simp [bulk_update_document_labels, hdocs, h, he]

theorem bulk_remove_ok (db : DB) (userId : Nat) (ds ls : List Nat)
    (hdocs : docCheckCount db userId ds = ds.length)
    (hlabels : ls = [] ∨ labelCheckCount db userId ls = ls.length) :
    bulk_update_document_labels db userId ds ls "remove"
      = .ok ({ db with document_labels := (db.document_labels.filter
          (fun a => !(ds.contains a.document_id && ls.contains a.label_id))) },
        ds.length) := by
  cases he : ls.isEmpty with
  | true =>
    have hnil : ls = [] := List.isEmpty_iff.mp he
    subst hnil
    simp [bulk_update_document_labels, hdocs]
  | false =>
    have h : labelCheckCount db userId ls = ls.length := by
      rcases hlabels with h | h
      · subst h; simp at he
      · exact h
    simp [bulk_update_document_labels, hdocs, h, he]

/-- Shared specification of the bulk endpoint on validated input: the call
succeeds and each mode determines every targeted document's final label
set. -/
theorem bulkModeSpec (db : DB) (userId : Nat)
    (documentIds labelIds : List Nat) (mode : String)
    (hmode : mode = "replace" ∨ mode = "add" ∨ mode = "remove")
    (hdocs : docCheckCount db userId documentIds = documentIds.length)
    (hlabels : labelIds = [] ∨ labelCheckCount db userId labelIds = labelIds.length) :
    ∃ db' : DB,
      bulk_update_document_labels db userId documentIds labelIds mode
          = .ok (db', documentIds.length) ∧
      (∀ d ∈ documentIds, ∀ l : Nat,
        (mode = "replace" → (l ∈ docLabels db' d ↔ l ∈ labelIds)) ∧
        (mode = "add" → (l ∈ docLabels db' d ↔ l ∈ docLabels db d ∨ l ∈ labelIds)) ∧
        (mode = "remove" → (l ∈ docLabels db' d ↔ l ∈ docLabels db d ∧ l ∉ labelIds))) ∧
      (labelIds = [] → (mode = "add" ∨ mode = "remove") → db' = db) := by
  rcases hmode with rfl | rfl | rfl
  · refine ⟨_, bulk_replace_ok db userId documentIds labelIds hdocs hlabels, ?_, ?_⟩
    · intro d hd l
      refine ⟨fun _ => ?_, fun h => absurd h (by decide), fun h => absurd h (by decide)⟩
      rw [mem_docLabels]
      simp only [hasPair_insertIgnoreRows, hasPair_mkRows,
        hasPair_filter_not_contains db.document_labels documentIds d l hd]
      simp [hd]
    · rintro rfl (h | h) <;> exact absurd h (by decide)
  · refine ⟨_, bulk_add_ok db userId documentIds labelIds hdocs hlabels, ?_, ?_⟩
    · intro d hd l
      refine ⟨fun h => absurd h (by decide), fun _ => ?_, fun h => absurd h (by decide)⟩
      rw [mem_docLabels, mem_docLabels]
      simp only [hasPair_insertIgnoreRows, hasPair_mkRows]
      simp [hd]
    · rintro rfl _
      show { db with document_labels :=
        insertIgnoreRows db.document_labels (mkRows documentIds [] userId) } = db
      rw [mkRows_nil, insertIgnoreRows_nil]
  · refine ⟨_, bulk_remove_ok db userId documentIds labelIds hdocs hlabels, ?_, ?_⟩
    · intro d hd l
      refine ⟨fun h => absurd h (by decide), fun h => absurd h (by decide), fun _ => ?_⟩
      rw [mem_docLabels, mem_docLabels]
      simp only [hasPair_filter_remove]
      simp [hd]
    · rintro rfl _
      show { db with document_labels := (db.document_labels.filter
        (fun a => !(documentIds.contains a.document_id &&
          List.contains [] a.label_id))) } = db
      have hself : db.document_labels.filter
          (fun a => !(documentIds.contains a.document_id &&
            List.contains [] a.label_id)) = db.document_labels := by
        apply List.filter_eq_self.mpr
        intro a _
        simp
      rw [hself]

/-- C1: for every targeted document of a bulk apply that passes validation
(owned documents, visible labels), the mode determines the final label set
exactly: `replace` yields exactly the given label ids, `add` the union of
the previous set with the given ids, `remove` the previous set minus the
given ids; an empty `labelIds` with `add`/`remove` leaves the state
unchanged, and in every case the call succeeds and reports the count of
targeted documents. -/
theorem C1_bulk_mode_algebra (db : DB) (userId : Nat)
    (documentIds labelIds : List Nat) (mode : String)
    (hmode : mode = "replace" ∨ mode = "add" ∨ mode = "remove")
    (hdocs : docCheckCount db userId documentIds = documentIds.length)
    (hlabels : labelIds = [] ∨ labelCheckCount db userId labelIds = labelIds.length) :
    ∃ db' : DB,
      bulk_update_document_labels db userId documentIds labelIds mode
          = .ok (db', documentIds.length) ∧
      (∀ d ∈ documentIds, ∀ l : Nat,
        (mode = "replace" → (l ∈ docLabels db' d ↔ l ∈ labelIds)) ∧
        (mode = "add" → (l ∈ docLabels db' d ↔ l ∈ docLabels db d ∨ l ∈ labelIds)) ∧
        (mode = "remove" → (l ∈ docLabels db' d ↔ l ∈ docLabels db d ∧ l ∉ labelIds))) ∧
      (labelIds = [] → (mode = "add" ∨ mode = "remove") → db' = db) :=
  bulkModeSpec db userId documentIds labelIds mode hmode hdocs hlabels

/-- Witness for C1 at a concrete state: bulk `add` of label 20 to documents
10 and 11 of `exDB`. -/
theorem C1_bulk_mode_algebra_witness : ∃ db' : DB,
    bulk_update_document_labels exDB 1 [10, 11] [20] "add"
        = .ok (db', [10, 11].length) ∧
    (∀ d ∈ [10, 11], ∀ l : Nat,
      ("add" = "replace" → (l ∈ docLabels db' d ↔ l ∈ [20])) ∧
      ("add" = "add" → (l ∈ docLabels db' d ↔ l ∈ docLabels exDB d ∨ l ∈ [20])) ∧
      ("add" = "remove" → (l ∈ docLabels db' d ↔ l ∈ docLabels exDB d ∧ l ∉ [20]))) ∧
    (([20] : List Nat) = [] → ("add" = "add" ∨ "add" = "remove") → db' = exDB) :=
  C1_bulk_mode_algebra exDB 1 [10, 11] [20] "add" (Or.inr (Or.inl rfl))
    (by decide) (Or.inr (by decide))

theorem bulk_ok_inv (db : DB) (userId : Nat) (ds ls : List Nat) (mode : String)
    (db' : DB) (n : Nat)
    (h : bulk_update_document_labels db userId ds ls mode = .ok (db', n)) :
    docCheckCount db userId ds = ds.length ∧
      (ls = [] ∨ labelCheckCount db userId ls = ls.length) := by
  unfold bulk_update_document_labels at h
  cases hm : (mode == "replace" || mode == "add" || mode == "remove") with
  | false => rw [hm] at h; simp at h
  | true =>
    rw [hm] at h
    cases hdc : (docCheckCount db userId ds == ds.length) with
    | false => rw [hdc] at h; simp at h
    | true =>
      rw [hdc] at h
      refine ⟨beq_iff_eq.mp hdc, ?_⟩
      cases hl : (!ls.isEmpty && !(labelCheckCount db userId ls == ls.length)) with
      | true => rw [hl] at h; simp at h
      | false =>
        rcases Bool.and_eq_false_iff.mp hl with h1 | h2
        · left
          refine List.isEmpty_iff.mp ?_
          revert h1
          cases ls.isEmpty <;> simp
        · right
          refine beq_iff_eq.mp ?_
          revert h2
          cases labelCheckCount db userId ls == ls.length <;> simp

/-- C2: bulk apply is all-or-nothing.  If any requested document id has no
document owned by the caller, the whole call fails with the validation
error before the transaction opens — the error branch carries no successor
state, so no document's label state changes.  When the call succeeds, every
targeted document reaches its mode-determined final state and the reported
count is the number of targeted documents. -/
theorem C2_bulk_atomicity (db : DB) (userId : Nat)
    (documentIds labelIds : List Nat) (mode : String)
    (hwf : db.wf = true)
    (hmode : mode = "replace" ∨ mode = "add" ∨ mode = "remove") :
    ((∃ d ∈ documentIds, ∀ doc ∈ db.documents, ¬(doc.id = d ∧ doc.user_id = userId)) →
      bulk_update_document_labels db userId documentIds labelIds mode
        = .error ⟨400, "One or more documents not found"⟩) ∧
    (∀ (db' : DB) (n : Nat),
      bulk_update_document_labels db userId documentIds labelIds mode
          = .ok (db', n) →
      n = documentIds.length ∧
      ∀ d ∈ documentIds, ∀ l : Nat,
        (mode = "replace" → (l ∈ docLabels db' d ↔ l ∈ labelIds)) ∧
        (mode = "add" → (l ∈ docLabels db' d ↔ l ∈ docLabels db d ∨ l ∈ labelIds)) ∧
        (mode = "remove" → (l ∈ docLabels db' d ↔ l ∈ docLabels db d ∧ l ∉ labelIds))) := by
  constructor
  · rintro ⟨d, hd, hbad⟩
    have hany : db.documents.any
        (fun doc => doc.id == d && doc.user_id == userId) = false := by
      cases h : db.documents.any (fun doc => doc.id == d && doc.user_id == userId) with
      | false => rfl
      | true =>
        exfalso
        obtain ⟨doc, hdoc, hp⟩ := List.any_eq_true.mp h
        obtain ⟨h1, h2⟩ := (Bool.and_eq_true _ _).mp hp
        exact hbad doc hdoc ⟨beq_iff_eq.mp h1, beq_iff_eq.mp h2⟩
    have hne : docCheckCount db userId documentIds ≠ documentIds.length := by
      rw [docCheckCount_eq db userId documentIds hwf]
      exact length_filter_dedup_ne documentIds _ d hd hany
    have hbeq : (docCheckCount db userId documentIds == documentIds.length) = false := by
      cases h : (docCheckCount db userId documentIds == documentIds.length) with
      | false => rfl
      | true => exact absurd (beq_iff_eq.mp h) hne
    rcases hmode with rfl | rfl | rfl <;>
      simp [bulk_update_document_labels, hbeq]
  · intro db' n hok
    obtain ⟨hdc, hl⟩ := bulk_ok_inv db userId documentIds labelIds mode db' n hok
    obtain ⟨db'', hbulk, hmem, _⟩ :=
      bulkModeSpec db userId documentIds labelIds mode hmode hdc hl
    rw [hbulk] at hok
    simp only [Except.ok.injEq, Prod.mk.injEq] at hok
    obtain ⟨hdb, hn⟩ := hok
    subst hdb
    exact ⟨hn.symm, hmem⟩

/-- Witness for C2: in `exDB`, a bulk `replace` over one valid document (10)
and one unknown document (999) fails with the validation error. -/
theorem C2_bulk_atomicity_witness :
    ((∃ d ∈ [10, 999], ∀ doc ∈ exDB.documents, ¬(doc.id = d ∧ doc.user_id = 1)) →
      bulk_update_document_labels exDB 1 [10, 999] [20] "replace"
        = .error ⟨400, "One or more documents not found"⟩) ∧
    (∀ (db' : DB) (n : Nat),
      bulk_update_document_labels exDB 1 [10, 999] [20] "replace"
          = .ok (db', n) →
      n = [10, 999].length ∧
      ∀ d ∈ [10, 999], ∀ l : Nat,
        ("replace" = "replace" → (l ∈ docLabels db' d ↔ l ∈ [20])) ∧
        ("replace" = "add" → (l ∈ docLabels db' d ↔ l ∈ docLabels exDB d ∨ l ∈ [20])) ∧
        ("replace" = "remove" →
          (l ∈ docLabels db' d ↔ l ∈ docLabels exDB d ∧ l ∉ [20]))) :=
  C2_bulk_atomicity exDB 1 [10, 999] [20] "replace" (by decide) (Or.inl rfl)

/-- C10: a `documentIds` list that repeats an id is rejected by the bulk
endpoint with the documents validation error before any mutation: the
ownership query returns each matching document once, so its count cannot
reach the raw length of a list with duplicates. -/
theorem C10_bulk_duplicate_docs_rejected (db : DB) (userId : Nat)
    (documentIds labelIds : List Nat) (mode : String)
    (hwf : db.wf = true)
    (hmode : mode = "replace" ∨ mode = "add" ∨ mode = "remove")
    (hdup : ¬ documentIds.Nodup) :
    bulk_update_document_labels db userId documentIds labelIds mode
      = .error ⟨400, "One or more documents not found"⟩ := by
  have hne : docCheckCount db userId documentIds ≠ documentIds.length := by
    rw [docCheckCount_eq db userId documentIds hwf]
    exact length_filter_dedup_ne_of_dup documentIds _ hdup
  have hbeq : (docCheckCount db userId documentIds == documentIds.length) = false := by
    cases h : (docCheckCount db userId documentIds == documentIds.length) with
    | false => rfl
    | true => exact absurd (beq_iff_eq.mp h) hne
  rcases hmode with rfl | rfl | rfl <;>
    simp [bulk_update_document_labels, hbeq]

/-- Witness for C10: the owned document 10 listed twice is rejected. -/
theorem C10_bulk_duplicate_docs_rejected_witness :
    bulk_update_document_labels exDB 1 [10, 10] [20] "add"
      = .error ⟨400, "One or more documents not found"⟩ :=
  C10_bulk_duplicate_docs_rejected exDB 1 [10, 10] [20] "add" (by decide)
    (Or.inr (Or.inl rfl)) (by decide)

/-- Counterexample to C5: an input listing the visible label 20 twice is
rejected with the labels validation error by both the bulk endpoint and the
single-document replace endpoint, instead of passing validation. -/
theorem C5_counterexample :
    bulk_update_document_labels exDB 1 [10] [20, 20] "add"
      = .error ⟨400, "One or more labels not found"⟩ ∧
    update_document_labels exDB 1 10 [20, 20]
      = .error ⟨400, "One or more labels not found"⟩ :=
  ⟨rfl, rfl⟩

/-- C5 (amended): the visibility query resolves each requested label at most
once, but its count is compared with the raw length of the input list, so
an input that lists the same visible label id more than once is rejected
with the labels validation error. -/
theorem C5_label_check_raw_length (db : DB) (userId : Nat)
    (documentIds labelIds : List Nat) (mode : String)
    (hwf : db.wf = true)
    (hmode : mode = "replace" ∨ mode = "add" ∨ mode = "remove")
    (hdocs : docCheckCount db userId documentIds = documentIds.length)
    (hdup : ¬ labelIds.Nodup) :
    bulk_update_document_labels db userId documentIds labelIds mode
      = .error ⟨400, "One or more labels not found"⟩ := by
  have hne : labelCheckCount db userId labelIds ≠ labelIds.length := by
    rw [labelCheckCount_eq db userId labelIds hwf]
    exact length_filter_dedup_ne_of_dup labelIds _ hdup
  have hlbeq : (labelCheckCount db userId labelIds == labelIds.length) = false := by
    cases h : (labelCheckCount db userId labelIds == labelIds.length) with
    | false => rfl
    | true => exact absurd (beq_iff_eq.mp h) hne
  have hnonempty : labelIds.isEmpty = false := by
    cases h : labelIds.isEmpty with
    | false => rfl
    | true =>
      refine absurd ?_ hdup
      rw [List.isEmpty_iff.mp h]
      exact List.nodup_nil
  rcases hmode with rfl | rfl | rfl <;>
    simp [bulk_update_document_labels, hdocs, hnonempty, hlbeq]

/-- Witness for C5 (amended): the duplicate list [20, 20] is rejected on a
bulk `remove` call over document 11. -/
theorem C5_label_check_raw_length_witness :
    bulk_update_document_labels exDB 1 [11] [20, 20] "remove"
      = .error ⟨400, "One or more labels not found"⟩ :=
  C5_label_check_raw_length exDB 1 [11] [20, 20] "remove" (by decide)
    (Or.inr (Or.inr rfl)) (by decide) (by decide)

/-- Counterexample to C6: a bulk call with an empty `documentIds` list does
not fail with a validation error — it succeeds, mutates nothing and
reports zero documents updated. -/
theorem C6_counterexample :
    bulk_update_document_labels exDB 1 [] [20] "add" = .ok (exDB, 0) := rfl

/-- C6 (amended): the bulk endpoint performs no non-emptiness validation on
`documentIds`: an empty list passes the ownership check vacuously (0 = 0)
and the call succeeds with `documents_updated = 0` and an unchanged
store. -/
theorem C6_empty_documentIds_succeeds (db : DB) (userId : Nat)
    (labelIds : List Nat) (mode : String)
    (hmode : mode = "replace" ∨ mode = "add" ∨ mode = "remove")
    (hlabels : labelIds = [] ∨ labelCheckCount db userId labelIds = labelIds.length) :
    bulk_update_document_labels db userId [] labelIds mode = .ok (db, 0) := by
  have hdocs : docCheckCount db userId [] = ([] : List Nat).length := by
    simp [docCheckCount]
  have hfilter : db.document_labels.filter
      (fun a => !(List.contains [] a.document_id)) = db.document_labels := by
    apply List.filter_eq_self.mpr
    intro a _
    simp
  rcases hmode with rfl | rfl | rfl
  · rw [bulk_replace_ok db userId [] labelIds hdocs hlabels]
    rw [show mkRows [] labelIds userId = [] from rfl, insertIgnoreRows_nil, hfilter]
    rfl
  · rw [bulk_add_ok db userId [] labelIds hdocs hlabels]
    rw [show mkRows [] labelIds userId = [] from rfl, insertIgnoreRows_nil]
    rfl
  · rw [bulk_remove_ok db userId [] labelIds hdocs hlabels]
    have hfilter2 : db.document_labels.filter
        (fun a => !(List.contains [] a.document_id &&
          labelIds.contains a.label_id)) = db.document_labels := by
      apply List.filter_eq_self.mpr
      intro a _
      simp
    rw [hfilter2]
    rfl

/-- Witness for C6 (amended): empty `documentIds` with mode `replace` on
`exDB` succeeds with zero documents updated. -/
theorem C6_empty_documentIds_succeeds_witness :
    bulk_update_document_labels exDB 1 [] [21] "replace" = .ok (exDB, 0) :=
  C6_empty_documentIds_succeeds exDB 1 [21] "replace" (Or.inl rfl)
    (Or.inr (by decide))

theorem pairFilter_nil (rows : List Assignment) (d l : Nat)
    (h : hasPair rows d l = false) :
    rows.filter (fun a => a.document_id == d && a.label_id == l) = [] := by
  rw [List.filter_eq_nil_iff]
  intro a ha hp
  have : hasPair rows d l = true := List.any_eq_true.mpr ⟨a, ha, hp⟩
  rw [h] at this
  cases this

theorem countPair_one (rows : List Assignment) (d l : Nat)
    (hnd : pairNodup rows = true) (h : hasPair rows d l = true) :
    (rows.filter (fun a => a.document_id == d && a.label_id == l)).length = 1 := by
  induction rows with
  | nil => simp [hasPair] at h
  | cons r rest ih =>
    obtain ⟨hhead, htail⟩ := (pairNodup_cons_iff r rest).mp hnd
    cases hc : (r.document_id == d && r.label_id == l) with
    | true =>
      obtain ⟨h1, h2⟩ := (Bool.and_eq_true _ _).mp hc
      have hdd := beq_iff_eq.mp h1
      have hll := beq_iff_eq.mp h2
      have hrest : rest.filter (fun a => a.document_id == d && a.label_id == l) = [] := by
        rw [List.filter_eq_nil_iff]
        intro a ha hp
        obtain ⟨p1, p2⟩ := (Bool.and_eq_true _ _).mp hp
        exact hhead a ha ⟨(beq_iff_eq.mp p1).trans hdd.symm,
          (beq_iff_eq.mp p2).trans hll.symm⟩
      simp [List.filter_cons, hc, hrest]
    | false =>
      have h' : hasPair rest d l = true := by
        rcases (hasPair_cons _ _ _ _).mp h with ⟨hdd, hll⟩ | h'
        · exfalso
          rw [hdd, hll] at hc
          simp at hc
        · exact h'
      simp [List.filter_cons, hc, ih htail h']

/-- C3: single-item add is idempotent.  For an owned document and a visible
label, the first call succeeds, the second call on the resulting state
succeeds with the distinguishable no-op message `"Label already assigned"`
while leaving the state unchanged, exactly one assignment row for the pair
exists afterwards, and when the pair was fresh the first call reports
`"Label added successfully"`. -/
theorem C3_addOne_idempotent (db : DB) (userId docId labelId : Nat)
    (hwf : db.wf = true)
    (howns : ownsDoc db userId docId = true)
    (hvis : db.labels.any (fun l => l.id == labelId && visibleLabel userId l) = true) :
    ∃ (db1 : DB) (m1 : String),
      add_document_label db userId docId labelId = .ok (db1, m1) ∧
      add_document_label db1 userId docId labelId
        = .ok (db1, "Label already assigned") ∧
      (db1.document_labels.filter
        (fun a => a.document_id == docId && a.label_id == labelId)).length = 1 ∧
      (hasPair db.document_labels docId labelId = false →
        m1 = "Label added successfully") := by
  cases hp : hasPair db.document_labels docId labelId with
  | true =>
    refine ⟨db, "Label already assigned", ?_, ?_, ?_, ?_⟩
    · simp [add_document_label, howns, hvis, hp]
    · simp [add_document_label, howns, hvis, hp]
    · exact countPair_one db.document_labels docId labelId (wf_parts db hwf).2.2 hp
    · intro h; exact absurd h (by decide)
  | false =>
    refine ⟨{ db with document_labels :=
        db.document_labels ++ [⟨docId, labelId, userId⟩] },
      "Label added successfully", ?_, ?_, ?_, ?_⟩
    · simp [add_document_label, howns, hvis, hp]
    · have howns1 : ownsDoc { db with document_labels :=
          db.document_labels ++ [⟨docId, labelId, userId⟩] } userId docId = true := howns
      have hp1 : hasPair (db.document_labels ++ [⟨docId, labelId, userId⟩])
          docId labelId = true := by
        rw [hasPair_append]
        have : hasPair [(⟨docId, labelId, userId⟩ : Assignment)] docId labelId = true :=
          (hasPair_singleton ⟨docId, labelId, userId⟩ docId labelId).mpr ⟨rfl, rfl⟩
        rw [this, Bool.or_true]
      simp [add_document_label, howns1, hvis, hp1]
    · show ((db.document_labels ++ [(⟨docId, labelId, userId⟩ : Assignment)]).filter
        (fun a => a.document_id == docId && a.label_id == labelId)).length = 1
      rw [List.filter_append, pairFilter_nil db.document_labels docId labelId hp]
      simp
    · intro _; rfl

/-- Witness for C3: adding the fresh pair (document 11, label 20) twice in
`exDB`. -/
theorem C3_addOne_idempotent_witness :
    ∃ (db1 : DB) (m1 : String),
      add_document_label exDB 1 11 20 = .ok (db1, m1) ∧
      add_document_label db1 1 11 20 = .ok (db1, "Label already assigned") ∧
      (db1.document_labels.filter
        (fun a => a.document_id == 11 && a.label_id == 20)).length = 1 ∧
      (hasPair exDB.document_labels 11 20 = false →
        m1 = "Label added successfully") :=
  C3_addOne_idempotent exDB 1 11 20 (by decide) (by decide) (by decide)

theorem labelCheckCount_of_visible (db : DB) (u : Nat) (L : List Nat)
    (hwf : db.wf = true) (hnd : L.Nodup)
    (hvis : ∀ x ∈ L, db.labels.any (fun lab => lab.id == x && visibleLabel u lab) = true) :
    labelCheckCount db u L = L.length := by
  unfold labelCheckCount
  rw [length_filter_contains (fun l : Label => l.id) (visibleLabel u) L db.labels
    hnd (wf_parts db hwf).1]
  rw [List.filter_eq_self.mpr hvis]

theorem hasPair_filter_not_doc (rows : List Assignment) (docId l : Nat) :
    hasPair (rows.filter (fun a => !(a.document_id == docId))) docId l = false := by
  cases h : hasPair (rows.filter (fun a => !(a.document_id == docId))) docId l with
  | false => rfl
  | true =>
    exfalso
    obtain ⟨a, ha, hdd, hll⟩ := (hasPair_iff _ _ _).mp h
    have hpred := (List.mem_filter.mp ha).2
    rw [Bool.not_eq_eq_eq_not, Bool.not_true, beq_eq_false_iff_ne] at hpred
    exact hpred hdd

theorem pairNodup_map (docId u : Nat) (L : List Nat) (h : L.Nodup) :
    pairNodup (L.map (fun l => ⟨docId, l, u⟩)) = true := by
  induction L with
  | nil => rfl
  | cons x rest ih =>
    obtain ⟨hx, hrest⟩ := List.nodup_cons.mp h
    rw [List.map_cons]
    refine (pairNodup_cons_iff _ _).mpr ⟨?_, ih hrest⟩
    rintro b hb ⟨hbd, hbl⟩
    obtain ⟨y, hy, rfl⟩ := List.mem_map.mp hb
    have hyx : y = x := hbl
    exact hx (hyx ▸ hy)

/-- Counterexample to C4: the list [21, 21], which repeats the visible label
21, is rejected by the full-replacement endpoint instead of succeeding with
duplicates collapsed. -/
theorem C4_counterexample :
    update_document_labels exDB 1 10 [21, 21]
      = .error ⟨400, "One or more labels not found"⟩ := rfl

/-- C4 (amended): for an owned document and a duplicate-free list `L` of
visible labels, full replacement succeeds, and the labels subsequently
listed for the document are exactly those of `L` as a set.  (A list that
repeats an id is rejected by validation, so the round-trip holds only for
duplicate-free lists.) -/
theorem C4_replaceAll_roundtrip (db : DB) (userId docId : Nat) (L : List Nat)
    (hwf : db.wf = true)
    (howns : ownsDoc db userId docId = true)
    (hnd : L.Nodup)
    (hvis : ∀ x ∈ L, db.labels.any
      (fun lab => lab.id == x && visibleLabel userId lab) = true) :
    ∃ (db' : DB) (ls : List Label),
      update_document_labels db userId docId L = .ok (db', ls) ∧
      get_document_labels db' userId docId = .ok ls ∧
      (∀ x : Nat, (∃ lab ∈ ls, lab.id = x) ↔ x ∈ L) := by
  have hcheck : labelCheckCount db userId L = L.length :=
    labelCheckCount_of_visible db userId L hwf hnd hvis
  have hcheckb : (labelCheckCount db userId L == L.length) = true :=
    beq_iff_eq.mpr hcheck
  have hins : insertAssignRows
      (db.document_labels.filter (fun a => !(a.document_id == docId)))
      (L.map (fun l => (⟨docId, l, userId⟩ : Assignment)))
      = some (db.document_labels.filter (fun a => !(a.document_id == docId))
          ++ L.map (fun l => (⟨docId, l, userId⟩ : Assignment))) := by
    apply insertAssignRows_eq
    · intro r hr
      obtain ⟨y, hy, rfl⟩ := List.mem_map.mp hr
      exact hasPair_filter_not_doc db.document_labels docId y
    · exact pairNodup_map docId userId L hnd
  have hfilterrows : (db.document_labels.filter (fun a => !(a.document_id == docId))
        ++ L.map (fun l => (⟨docId, l, userId⟩ : Assignment))).filter
          (fun a => a.document_id == docId)
      = L.map (fun l => (⟨docId, l, userId⟩ : Assignment)) := by
    rw [List.filter_append]
    have h1 : (db.document_labels.filter (fun a => !(a.document_id == docId))).filter
        (fun a => a.document_id == docId) = [] := by
      rw [List.filter_eq_nil_iff]
      intro a ha hp
      have hpred := (List.mem_filter.mp ha).2
      rw [Bool.not_eq_eq_eq_not, Bool.not_true] at hpred
      rw [hpred] at hp
      cases hp
    have h2 : (L.map (fun l => (⟨docId, l, userId⟩ : Assignment))).filter
        (fun a => a.document_id == docId) = L.map (fun l => (⟨docId, l, userId⟩ : Assignment)) := by
      apply List.filter_eq_self.mpr
      intro a ha
      obtain ⟨y, hy, rfl⟩ := List.mem_map.mp ha
      simp
    rw [h1, h2, List.nil_append]
  have howns' : ownsDoc { db with document_labels :=
      (db.document_labels.filter (fun a => !(a.document_id == docId))
        ++ L.map (fun l => (⟨docId, l, userId⟩ : Assignment))) } userId docId = true := howns
  have hget : get_document_labels { db with document_labels :=
      (db.document_labels.filter (fun a => !(a.document_id == docId))
        ++ L.map (fun l => (⟨docId, l, userId⟩ : Assignment))) } userId docId
      = .ok (sortByName ((L.map (fun l => (⟨docId, l, userId⟩ : Assignment))).filterMap
          (fun a => db.labels.find? (fun l => l.id == a.label_id)))) := by
    unfold get_document_labels
    rw [howns']
    simp only [Bool.not_true, Bool.false_eq_true, if_false]
    rw [hfilterrows]
  refine ⟨_, _, ?_, hget, ?_⟩
  · unfold update_document_labels
    rw [howns, hcheckb]
    simp only [Bool.not_true, Bool.false_eq_true, if_false]
    rw [hins]
    dsimp only
    rw [hget]
  · intro x
    constructor
    · rintro ⟨lab, hlab, rfl⟩
      rw [mem_sortByName] at hlab
      obtain ⟨a, ha, hfind⟩ := List.mem_filterMap.mp hlab
      obtain ⟨y, hy, rfl⟩ := List.mem_map.mp ha
      have hpred := List.find?_some hfind
      rw [beq_iff_eq] at hpred
      rw [hpred]
      exact hy
    · intro hx
      have hrow : (⟨docId, x, userId⟩ : Assignment) ∈
          L.map (fun l => (⟨docId, l, userId⟩ : Assignment)) :=
        List.mem_map.mpr ⟨x, hx, rfl⟩
      cases hfind : db.labels.find? (fun l => l.id == x) with
      | none =>
        exfalso
        obtain ⟨lab, hlab, hpl⟩ := List.any_eq_true.mp (hvis x hx)
        have := List.find?_eq_none.mp hfind lab hlab
        exact this ((Bool.and_eq_true _ _).mp hpl).1
      | some lab =>
        have hpl := List.find?_some hfind
        rw [beq_iff_eq] at hpl
        refine ⟨lab, ?_, hpl⟩
        rw [mem_sortByName]
        exact List.mem_filterMap.mpr ⟨⟨docId, x, userId⟩, hrow, hfind⟩

/-- Witness for C4 (amended): replacing document 10's labels with
[20, 30] (an owned label and the system label) in `exDB`. -/
theorem C4_replaceAll_roundtrip_witness :
    ∃ (db' : DB) (ls : List Label),
      update_document_labels exDB 1 10 [20, 30] = .ok (db', ls) ∧
      get_document_labels db' 1 10 = .ok ls ∧
      (∀ x : Nat, (∃ lab ∈ ls, lab.id = x) ↔ x ∈ [20, 30]) :=
  C4_replaceAll_roundtrip exDB 1 10 [20, 30] (by decide) (by decide) (by decide)
    (by decide)

/-- Counterexample to C7: creating a second label named "Invoices" for user
1 fails with HTTP status 400, not 409. -/
theorem C7_counterexample :
    create_label exDB 1 "Invoices" none "#0969da" none none 99 5
      = .error ⟨400, "Label with this name already exists"⟩ ∧ (400 : Nat) ≠ 409 :=
  ⟨rfl, by decide⟩

/-- C7 (amended): creating a label whose (owner, name) pair already exists
fails with HTTP 400 "Label with this name already exists" (the handler maps
the uniqueness violation to 400, not 409); the error branch returns no
successor state, so the caller's catalog is unchanged by the failed
attempt. -/
theorem C7_create_name_conflict (db : DB) (userId : Nat) (nm : String)
    (descr : Option String) (color : String) (bg ic : Option String)
    (newId now : Nat)
    (hconf : ∃ l ∈ db.labels, l.user_id = userId ∧ l.name = nm) :
    create_label db userId nm descr color bg ic newId now
      = .error ⟨400, "Label with this name already exists"⟩ := by
  obtain ⟨l, hl, h1, h2⟩ := hconf
  have hany : db.labels.any (fun l => l.user_id == userId && l.name == nm) = true :=
    List.any_eq_true.mpr ⟨l, hl, by rw [h1, h2]; simp⟩
  simp [create_label, hany]

/-- Witness for C7 (amended): user 1 already owns "Invoices" in `exDB`. -/
theorem C7_create_name_conflict_witness :
    create_label exDB 1 "Invoices" none "#112233" none none 77 9
      = .error ⟨400, "Label with this name already exists"⟩ :=
  C7_create_name_conflict exDB 1 "Invoices" none "#112233" none none 77 9
    ⟨labInvoices, by decide, rfl, rfl⟩

/-- Counterexample to C8: an update of label 20 with an empty patch succeeds
but returns the label with its stored `updated_at` (3) instead of
refreshing it to the current time (99), and leaves the state untouched. -/
theorem C8_counterexample :
    update_label exDB 1 20 ⟨none, none, none, none, none⟩ 99
      = .ok (exDB, labInvoices) ∧
    labInvoices.updated_at = 3 ∧ (3 : Nat) ≠ 99 :=
  ⟨rfl, rfl, by decide⟩

/-- C8 (amended): label update has partial-patch frame semantics — exactly
the fields present in the patch change, every absent field keeps its prior
value, other labels and tables are untouched, and `updated_at` is refreshed
on every successful update whose patch contains at least one field; a call
whose patch contains no fields succeeds but returns the stored label with
state, including `updated_at`, unchanged. -/
theorem C8_update_patch_semantics (db : DB) (userId labelId now : Nat)
    (patch : LabelUpdate) (existing : Label)
    (hfind : db.labels.find? (fun l => l.id == labelId && l.user_id == userId &&
      l.is_system == false) = some existing) :
    (patchPresent patch = false →
      update_label db userId labelId patch now = .ok (db, existing)) ∧
    (patchPresent patch = true →
      db.labels.any (fun l => !(l.id == labelId) && l.user_id == userId &&
        l.name == patch.name.getD existing.name) = false →
      ∃ (db2 : DB) (newLab : Label),
        update_label db userId labelId patch now = .ok (db2, newLab) ∧
        newLab.name = patch.name.getD existing.name ∧
        newLab.description = (match patch.description with
          | some d => some d
          | none => existing.description) ∧
        newLab.color = patch.color.getD existing.color ∧
        newLab.background_color = (match patch.background_color with
          | some b => some b
          | none => existing.background_color) ∧
        newLab.icon = (match patch.icon with
          | some i => some i
          | none => existing.icon) ∧
        newLab.updated_at = now ∧
        newLab.id = existing.id ∧
        newLab.user_id = existing.user_id ∧
        newLab.is_system = existing.is_system ∧
        newLab.created_at = existing.created_at ∧
        db2.labels = db.labels.map (fun l => if l.id == labelId then newLab else l) ∧
        db2.documents = db.documents ∧
        db2.document_labels = db.document_labels) := by
  constructor
  · intro hnp
    unfold update_label
    rw [hfind]
    simp [hnp]
  · intro hp hnoconf
    have hnoconf' : db.labels.any (fun l => !(l.id == labelId) && l.user_id == userId &&
        l.name == (applyPatch existing patch now).name) = false := hnoconf
    unfold update_label
    rw [hfind]
    dsimp only
    simp only [hp, Bool.not_true, Bool.false_eq_true, if_false]
    rw [hnoconf']
    simp only [Bool.false_eq_true, if_false]
    exact ⟨_, applyPatch existing patch now, rfl, rfl, rfl, rfl, rfl, rfl, rfl,
      rfl, rfl, rfl, rfl, rfl, rfl, rfl⟩

/-- Witness for C8 (amended): patching label 20's name and color in
`exDB`. -/
theorem C8_update_patch_semantics_witness :
    (patchPresent ⟨some "Taxes", none, some "#ff0000", none, none⟩ = false →
      update_label exDB 1 20 ⟨some "Taxes", none, some "#ff0000", none, none⟩ 99
        = .ok (exDB, labInvoices)) ∧
    (patchPresent ⟨some "Taxes", none, some "#ff0000", none, none⟩ = true →
      exDB.labels.any (fun l => !(l.id == 20) && l.user_id == 1 &&
        l.name == (some "Taxes").getD labInvoices.name) = false →
      ∃ (db2 : DB) (newLab : Label),
        update_label exDB 1 20 ⟨some "Taxes", none, some "#ff0000", none, none⟩ 99
          = .ok (db2, newLab) ∧
        newLab.name = (some "Taxes").getD labInvoices.name ∧
        newLab.description = (match (none : Option String) with
          | some d => some d
          | none => labInvoices.description) ∧
        newLab.color = (some "#ff0000").getD labInvoices.color ∧
        newLab.background_color = (match (none : Option String) with
          | some b => some b
          | none => labInvoices.background_color) ∧
        newLab.icon = (match (none : Option String) with
          | some i => some i
          | none => labInvoices.icon) ∧
        newLab.updated_at = 99 ∧
        newLab.id = labInvoices.id ∧
        newLab.user_id = labInvoices.user_id ∧
        newLab.is_system = labInvoices.is_system ∧
        newLab.created_at = labInvoices.created_at ∧
        db2.labels = exDB.labels.map (fun l => if l.id == 20 then newLab else l) ∧
        db2.documents = exDB.documents ∧
        db2.document_labels = exDB.document_labels) :=
  C8_update_patch_semantics exDB 1 20 99 ⟨some "Taxes", none, some "#ff0000", none, none⟩
    labInvoices (by decide)

theorem idsNodup_unique (f : α → Nat) :
    ∀ (xs : List α), idsNodup f xs = true →
      ∀ a ∈ xs, ∀ b ∈ xs, f a = f b → a = b := by
  intro xs
  induction xs with
  | nil => intro _ a ha; cases ha
  | cons x rest ih =>
    intro hnd a ha b hb hfab
    simp only [idsNodup, Bool.and_eq_true] at hnd
    obtain ⟨hhead, htail⟩ := hnd
    have hanyf : rest.any (fun y => f y == f x) = false := by
      revert hhead
      cases rest.any (fun y => f y == f x) <;> simp
    have hno : ∀ y ∈ rest, ¬ f y = f x := by
      intro y hy heq
      have : rest.any (fun y => f y == f x) = true :=
        List.any_eq_true.mpr ⟨y, hy, beq_iff_eq.mpr heq⟩
      rw [hanyf] at this
      cases this
    rcases List.mem_cons.mp ha with rfl | ha'
    · rcases List.mem_cons.mp hb with rfl | hb'
      · rfl
      · exact absurd hfab.symm (hno b hb')
    · rcases List.mem_cons.mp hb with rfl | hb'
      · exact absurd hfab (hno a ha')
      · exact ih htail a ha' b hb' hfab

/-- C9: a system label is immutable through this surface.  For any label
with `is_system = true` and any caller, update and delete both fail with
the 404 responses (so the label is unchanged), while the label remains
visible in the caller's label listing and is assignable to a document the
caller owns. -/
theorem C9_system_label_immutable (db : DB) (userId : Nat) (lab : Label)
    (doc : Doc) (patch : LabelUpdate) (now : Nat)
    (hwf : db.wf = true)
    (hlab : lab ∈ db.labels)
    (hsys : lab.is_system = true)
    (hdoc : doc ∈ db.documents)
    (howner : doc.user_id = userId) :
    update_label db userId lab.id patch now
      = .error ⟨404, "Label not found or cannot be modified"⟩ ∧
    delete_label db userId lab.id
      = .error ⟨404, "Label not found or cannot be deleted"⟩ ∧
    lab ∈ get_labels db userId ∧
    (∃ (db1 : DB) (m : String),
      add_document_label db userId doc.id lab.id = .ok (db1, m)) := by
  have huniq := idsNodup_unique (fun l : Label => l.id) db.labels (wf_parts db hwf).1
  have hpredfalse : ∀ l ∈ db.labels,
      (l.id == lab.id && l.user_id == userId && l.is_system == false) = false := by
    intro l hl
    cases hid : (l.id == lab.id) with
    | false => simp [hid]
    | true =>
      have heq : l = lab := huniq l hl lab hlab (beq_iff_eq.mp hid)
      rw [heq, hsys]
      simp
  refine ⟨?_, ?_, ?_, ?_⟩
  · have hfind : db.labels.find? (fun l => l.id == lab.id && l.user_id == userId &&
        l.is_system == false) = none := by
      rw [List.find?_eq_none]
      intro x hx
      rw [hpredfalse x hx]
      simp
    unfold update_label
    rw [hfind]
  · have hrem : db.labels.filter (fun l => !(l.id == lab.id && l.user_id == userId &&
        l.is_system == false)) = db.labels := by
      apply List.filter_eq_self.mpr
      intro x hx
      rw [hpredfalse x hx]
      rfl
    unfold delete_label
    rw [hrem]
    simp
  · rw [get_labels, mem_sortByName]
    exact List.mem_filter.mpr ⟨hlab, by simp [visibleLabel, hsys]⟩
  · have hownsd : ownsDoc db userId doc.id = true :=
      List.any_eq_true.mpr ⟨doc, hdoc, by simp [howner]⟩
    have hvisl : db.labels.any
        (fun l => l.id == lab.id && visibleLabel userId l) = true :=
      List.any_eq_true.mpr ⟨lab, hlab, by simp [visibleLabel, hsys]⟩
    cases hp : hasPair db.document_labels doc.id lab.id with
    | true =>
      exact ⟨db, "Label already assigned",
        by simp [add_document_label, hownsd, hvisl, hp]⟩
    | false =>
      exact ⟨{ db with document_labels :=
          db.document_labels ++ [⟨doc.id, lab.id, userId⟩] },
        "Label added successfully",
        by simp [add_document_label, hownsd, hvisl, hp]⟩

/-- Witness for C9: the system label "Archived" (id 30) in `exDB` with
caller 1 and owned document 10. -/
theorem C9_system_label_immutable_witness :
    update_label exDB 1 labArchived.id ⟨some "X", none, none, none, none⟩ 99
      = .error ⟨404, "Label not found or cannot be modified"⟩ ∧
    delete_label exDB 1 labArchived.id
      = .error ⟨404, "Label not found or cannot be deleted"⟩ ∧
    labArchived ∈ get_labels exDB 1 ∧
    (∃ (db1 : DB) (m : String),
      add_document_label exDB 1 (Doc.mk 10 1).id labArchived.id = .ok (db1, m)) :=
  C9_system_label_immutable exDB 1 labArchived ⟨10, 1⟩
    ⟨some "X", none, none, none, none⟩ 99 (by decide) (by decide) (by decide)
    (by decide) (by decide)
